import Mathlib

/-!
Shallow embedding of the entitlement and verification-token engine of the
movie bot (`src/bot/index.ts`, `src/bot/schema.ts`).

Timestamps are epoch milliseconds as `Nat`; JavaScript date subtraction is
modelled as `Int` subtraction.  Credit balances are `Int` (the `credits`
integer column).  Statuses are the literal strings the source stores.
-/

namespace MovieBot

/-- One hour in milliseconds. -/
def msPerHour : Nat := 60 * 60 * 1000

/-- `ACCESS_VALIDITY_HOURS` (src/bot/index.ts line 44): access expires after 12 h. -/
def ACCESS_VALIDITY_HOURS : Nat := 12

/-- The per-user columns of the `users` table that the credit/premium logic
reads and writes (src/bot/schema.ts lines 4-15). -/
structure Account where
  credits : Int
  lastCreditReset : Option Nat
  isPremium : Bool
  premiumExpiresAt : Option Nat
deriving DecidableEq, Repr

/-- A `credit_transactions` row (src/bot/schema.ts lines 74-80): signed
amount and reason tag. -/
structure CreditTx where
  amount : Int
  reason : String
deriving DecidableEq, Repr

/-- One account's row together with its slice of the append-only
`credit_transactions` log. -/
structure Ledger where
  account : Account
  txLog : List CreditTx
deriving DecidableEq, Repr

/-- A fresh `users` row: schema defaults `credits = 0`,
`last_credit_reset` null, `is_premium` false. -/
def initLedger : Ledger :=
  { account := { credits := 0, lastCreditReset := none, isPremium := false,
                 premiumExpiresAt := none },
    txLog := [] }

/-- Sum of the signed amounts of a transaction-log slice. -/
def txSum (l : List CreditTx) : Int := (l.map (fun tx => tx.amount)).sum

/-- `msSinceReset` as `canEarnCredits` computes it (src/bot/index.ts line 290):
`now - lastCreditReset`, an unset reset anchor treated as 13 hours ago. -/
def msSinceReset (now : Nat) (a : Account) : Int :=
  match a.lastCreditReset with
  | some t => (now : Int) - (t : Int)
  | none => (13 * msPerHour : Nat)

/-- Result record of `canEarnCredits`. -/
structure CanEarnResult where
  canEarn : Bool
  hoursRemaining : Option Nat
  minutesRemaining : Option Nat
deriving DecidableEq, Repr

/-- `canEarnCredits` (src/bot/index.ts lines 284-306), on an existing row:
if at least 12 h elapsed since the reset anchor, zero the balance and move
the anchor to now; else if the balance is at least 2, block with the floored
hour/minute decomposition of the time left; else allow with no change.
`Math.floor` on the nonnegative remainder is `Nat` division. -/
def canEarnCredits (now : Nat) (a : Account) : CanEarnResult × Account :=
  let ms := msSinceReset now a
  if ms ≥ (12 * msPerHour : Nat) then
    ({ canEarn := true, hoursRemaining := none, minutesRemaining := none },
     { a with credits := 0, lastCreditReset := some now })
  else if a.credits ≥ 2 then
    let remainingMs : Nat := ((12 * msPerHour : Nat) - ms).toNat
    ({ canEarn := false,
       hoursRemaining := some (remainingMs / msPerHour),
       minutesRemaining := some (remainingMs % msPerHour / (60 * 1000)) }, a)
  else
    ({ canEarn := true, hoursRemaining := none, minutesRemaining := none }, a)

/-- `earnCredits` (src/bot/index.ts lines 308-319): append a `+2`
transaction with reason `"shortener_visit"`, add 2 to the cached balance,
and set the reset anchor to now only if it was unset. -/
def earnCredits (now : Nat) (l : Ledger) : Int × Ledger :=
  let newCredits := l.account.credits + 2
  (newCredits,
   { account := { l.account with
       credits := newCredits,
       lastCreditReset :=
         match l.account.lastCreditReset with
         | some t => some t
         | none => some now },
     txLog := l.txLog ++ [{ amount := 2, reason := "shortener_visit" }] })

/-- `spendCredit` (src/bot/index.ts lines 321-331), on an existing row:
below 1 credit it fails returning the current balance and changes nothing;
otherwise it appends a `-1` transaction with reason `"link_access"` and
decrements the cached balance by 1. -/
def spendCredit (l : Ledger) : (Bool × Int) × Ledger :=
  if l.account.credits < 1 then
    ((false, l.account.credits), l)
  else
    ((true, l.account.credits - 1),
     { account := { l.account with credits := l.account.credits - 1 },
       txLog := l.txLog ++ [{ amount := -1, reason := "link_access" }] })

/-- The referral award applied to the referrer inside `bot.command("start")`
(src/bot/index.ts line 475): `credits = credits + 1` by direct update, with
no `credit_transactions` insert. -/
def referralAward (l : Ledger) : Ledger :=
  { l with account := { l.account with credits := l.account.credits + 1 } }

/-- The admin `/reset` mutation (src/bot/index.ts line 1707):
`credits = 0`, `lastCreditReset = now`, no `credit_transactions` insert. -/
def adminResetCredits (now : Nat) (l : Ledger) : Ledger :=
  { l with account := { l.account with credits := 0, lastCreditReset := some now } }

/-- `canEarnCredits` as a ledger step (its reset branch mutates the row but
inserts no transaction). -/
def canEarnLedger (now : Nat) (l : Ledger) : CanEarnResult × Ledger :=
  let (r, a) := canEarnCredits now l.account
  (r, { l with account := a })

/-- The balance-mutating operations of the source, as events against one
account's ledger. -/
inductive CreditOp
  | canEarnQuery (now : Nat)
  | earn (now : Nat)
  | spend
  | referral
  | adminReset (now : Nat)
deriving DecidableEq, Repr

/-- Apply one balance-mutating operation. -/
def applyOp (l : Ledger) (op : CreditOp) : Ledger :=
  match op with
  | .canEarnQuery now => (canEarnLedger now l).2
  | .earn now => (earnCredits now l).2
  | .spend => (spendCredit l).2
  | .referral => referralAward l
  | .adminReset now => adminResetCredits now l

/-- Run a sequence of balance-mutating operations. -/
def runOps (l : Ledger) (ops : List CreditOp) : Ledger := ops.foldl applyOp l

/-- `isPremiumUser` (src/bot/index.ts lines 1122-1129), on an existing row:
false if the flag is off; false if an expiry is recorded and lies before
now; true otherwise. -/
def isPremiumUser (now : Nat) (a : Account) : Bool :=
  if !a.isPremium then false
  else
    match a.premiumExpiresAt with
    | some t => if t < now then false else true
    | none => true

/-- Result record of `isAccessValid`. -/
structure AccessValidity where
  valid : Bool
  hoursRemaining : Nat
  minutesRemaining : Nat
deriving DecidableEq, Repr

/-- `isAccessValid` (src/bot/index.ts lines 164-171): valid iff less than
12 h elapsed since `unlockedAt`; the remaining time, clamped at zero, is
floored into hours and minutes. -/
def isAccessValid (now unlockedAt : Nat) : AccessValidity :=
  let elapsed : Int := (now : Int) - (unlockedAt : Int)
  let remainingMs : Nat := ((ACCESS_VALIDITY_HOURS * msPerHour : Nat) - elapsed).toNat
  { valid := decide (elapsed < (ACCESS_VALIDITY_HOURS * msPerHour : Nat)),
    hoursRemaining := remainingMs / msPerHour,
    minutesRemaining := remainingMs % msPerHour / (60 * 1000) }

/-- A `movies` row, reduced to the columns the entitlement logic reads
(src/bot/schema.ts lines 17-25). -/
structure Movie where
  id : Nat
  status : String
deriving DecidableEq, Repr

/-- A `movie_verifications` row (src/bot/schema.ts lines 95-103):
content-unlock token. -/
structure MovieVerification where
  userId : Nat
  movieId : Nat
  status : String
  createdAt : Nat
deriving DecidableEq, Repr

/-- A `credit_verifications` row (src/bot/schema.ts lines 105-113):
credit-grant token. -/
structure CreditVerification where
  userId : Nat
  status : String
  creditsAmount : Int
  createdAt : Nat
deriving DecidableEq, Repr

/-- Outcomes of the `checkverify_` callback handler, one per `return`
(src/bot/index.ts lines 952-1016). -/
inductive CheckOutcome
  | notFound
  | notOwner
  | expired
  | stillPending
  | alreadyUsed
  | movieMissing
  | granted
  | unhandled
deriving DecidableEq, Repr

/-- The rows the `checkverify_` handler touches: the token row looked up by
its token string, the `movies` row with the token's `movieId` (if any), and
the `movie_access` row for (owner, movie) as its `unlockedAt` instant. -/
structure VerifyState where
  ver : Option MovieVerification
  movie : Option Movie
  accessUnlockedAt : Option Nat
deriving DecidableEq, Repr

/-- The `checkverify_` callback handler (src/bot/index.ts lines 952-1016):
missing row; foreign owner; lazy 1-hour expiry (`hoursPassed > 1`, written
to the row) checked BEFORE the status; then status dispatch; on `verified`,
grant-or-renew the access row at now and mark the token `used`. -/
def checkVerify (now requesterId : Nat) (s : VerifyState) :
    CheckOutcome × VerifyState :=
  match s.ver with
  | none => (.notFound, s)
  | some v =>
    if v.userId ≠ requesterId then (.notOwner, s)
    else if (now : Int) - (v.createdAt : Int) > (msPerHour : Nat) then
      (.expired, { s with ver := some { v with status := "expired" } })
    else if v.status = "pending" then (.stillPending, s)
    else if v.status = "expired" then (.expired, s)
    else if v.status = "used" then (.alreadyUsed, s)
    else if v.status = "verified" then
      match s.movie with
      | none => (.movieMissing, s)
      | some _ =>
        (.granted,
         { s with accessUnlockedAt := some now,
                  ver := some { v with status := "used" } })
    else (.unhandled, s)

/-- Outcomes of the `checkcredit_` callback handler
(src/bot/index.ts lines 1070-1120). -/
inductive CreditCheckOutcome
  | notFound
  | notOwner
  | expired
  | stillPending
  | alreadyUsed
  | credited (newCredits : Int)
  | unhandled
deriving DecidableEq, Repr

/-- The rows the `checkcredit_` handler touches: the credit token row and
the owner's ledger. -/
structure CreditCheckState where
  ver : Option CreditVerification
  ledger : Ledger
deriving DecidableEq, Repr

/-- The `checkcredit_` callback handler (src/bot/index.ts lines 1070-1120):
same shape as `checkVerify`; on `verified` it runs `earnCredits` and marks
the token `used`. -/
def checkCredit (now requesterId : Nat) (s : CreditCheckState) :
    CreditCheckOutcome × CreditCheckState :=
  match s.ver with
  | none => (.notFound, s)
  | some v =>
    if v.userId ≠ requesterId then (.notOwner, s)
    else if (now : Int) - (v.createdAt : Int) > (msPerHour : Nat) then
      (.expired, { s with ver := some { v with status := "expired" } })
    else if v.status = "pending" then (.stillPending, s)
    else if v.status = "expired" then (.expired, s)
    else if v.status = "used" then (.alreadyUsed, s)
    else if v.status = "verified" then
      let (n, l) := earnCredits now s.ledger
      (.credited n, { ver := some { v with status := "used" }, ledger := l })
    else (.unhandled, s)

/-- Outcomes of the `/getlink_` handler, one per `return`
(src/bot/index.ts lines 846-949). -/
inductive GetlinkOutcome
  | notFound
  | notAvailable
  | noContent
  | adminAccess
  | premiumAccess
  | grantStillValid
  | needsVerification
  | linkError
deriving DecidableEq, Repr

/-- The rows the `/getlink_` handler touches: the requester's ledger, the
movie found by id prefix (if any), whether its asset lookup found files or
links, the requester's `movie_access` row, and the freshly inserted pending
`movie_verifications` row, if the handler minted one. -/
structure GetlinkState where
  ledger : Ledger
  movie : Option Movie
  hasAssets : Bool
  accessUnlockedAt : Option Nat
  mintedVerification : Option MovieVerification
deriving DecidableEq, Repr

/-- The `/getlink_` handler (src/bot/index.ts lines 846-949): no movie;
publish gate (skipped for admins and holders of a still-valid grant); asset
gate; admin instant access (nothing persisted); premium access (grant
renewed if invalid); still-valid grant redelivery; otherwise a pending
content-unlock token is inserted, then the short link is generated
(`shortUrlOk` is the external shortener succeeding). -/
def getlink (now userId : Nat) (userIsAdmin shortUrlOk : Bool)
    (s : GetlinkState) : GetlinkOutcome × GetlinkState :=
  match s.movie with
  | none => (.notFound, s)
  | some m =>
    let validity :=
      match s.accessUnlockedAt with
      | some t => isAccessValid now t
      | none => { valid := false, hoursRemaining := 0, minutesRemaining := 0 }
    if !userIsAdmin && !validity.valid && m.status ≠ "published" then
      (.notAvailable, s)
    else if !s.hasAssets then (.noContent, s)
    else if userIsAdmin then (.adminAccess, s)
    else if isPremiumUser now s.ledger.account then
      (.premiumAccess,
       if !validity.valid then { s with accessUnlockedAt := some now } else s)
    else if validity.valid then (.grantStillValid, s)
    else
      let row : MovieVerification :=
        { userId := userId, movieId := m.id, status := "pending",
          createdAt := now }
      let minted := { s with mintedVerification := some row }
      if shortUrlOk then (.needsVerification, minted) else (.linkError, minted)

/-- Outcomes of the `earncredits` callback handler
(src/bot/index.ts lines 2273-2335). -/
inductive EarnCbOutcome
  | premiumBlocked
  | cooldown (hoursRemaining minutesRemaining : Option Nat)
  | minted
  | linkError
deriving DecidableEq, Repr

/-- The rows the `earncredits` callback touches: the requester's ledger and
the freshly inserted pending `credit_verifications` row, if minted. -/
structure EarnCbState where
  ledger : Ledger
  mintedCreditVerification : Option CreditVerification
deriving DecidableEq, Repr

/-- The `earncredits` callback handler (src/bot/index.ts lines 2273-2335):
it reads the RAW `isPremium` flag (line 2278, no expiry check), runs
`canEarnCredits` (whose reset branch mutates the row even when the premium
branch then returns), blocks premium accounts from the earning flow, blocks
on cooldown, and otherwise inserts a pending credit-grant token before
generating the short link. -/
def earncreditsCallback (now userId : Nat) (shortUrlOk : Bool)
    (s : EarnCbState) : EarnCbOutcome × EarnCbState :=
  let isPremium := s.ledger.account.isPremium
  let (r, a) := canEarnCredits now s.ledger.account
  let s1 : EarnCbState := { s with ledger := { s.ledger with account := a } }
  if isPremium then (.premiumBlocked, s1)
  else if !r.canEarn then (.cooldown r.hoursRemaining r.minutesRemaining, s1)
  else
    let row : CreditVerification :=
      { userId := userId, status := "pending", creditsAmount := 2,
        createdAt := now }
    let minted := { s1 with mintedCreditVerification := some row }
    if shortUrlOk then (.minted, minted) else (.linkError, minted)

/-- A `referrals` row (src/bot/schema.ts lines 115-121); `referredId`
carries a UNIQUE constraint. -/
structure ReferralRow where
  referrerId : Nat
  referredId : Nat
  creditsAwarded : Int
deriving DecidableEq, Repr

/-- The referral registry together with the referrer's ledger. -/
structure ReferralState where
  referrals : List ReferralRow
  referrer : Ledger
deriving DecidableEq, Repr

/-- The referral block of `bot.command("start")` (src/bot/index.ts lines
463-487): insert a referral row with `creditsAwarded = 1`; the UNIQUE
constraint on `referredId` makes the insert fail when a row for that
referred account exists, and the catch swallows the violation (silent
no-op); on success the referrer's `credits` is incremented by 1 by direct
update, with no `credit_transactions` insert. -/
def registerReferral (referrerId referredId : Nat) (s : ReferralState) :
    ReferralState :=
  if s.referrals.any (fun r => r.referredId == referredId) then s
  else
    { referrals := s.referrals ++
        [{ referrerId := referrerId, referredId := referredId,
           creditsAwarded := 1 }],
      referrer := referralAward s.referrer }

/-! ## Claims -/

/-- C1, counterexample. The claim says a used token's owner check always
returns already_used and leaves the status used, and that only pending or
verified tokens ever transition to expired.  On the code, a used
content-unlock token checked by its owner 2 hours after creation gets the
expired outcome and its status is overwritten from used to expired. -/
theorem c1_used_token_expired_by_late_check :
    checkVerify 7200000 7
      { ver := some { userId := 7, movieId := 3, status := "used",
                      createdAt := 0 },
        movie := some { id := 3, status := "published" },
        accessUnlockedAt := none } =
      (.expired,
       { ver := some { userId := 7, movieId := 3, status := "expired",
                       createdAt := 0 },
         movie := some { id := 3, status := "published" },
         accessUnlockedAt := none }) := by
  decide

/-- C1, amended. For both token kinds, an owner check of a used token made
no more than 1 hour after creation returns already_used and leaves the row
(and all other state) unchanged; an owner check made strictly later than
1 hour returns expired and overwrites the status to expired, because the
lazy expiry write is not guarded on the pending/verified states. -/
theorem c1_used_token_check_amended
    (now uid : Nat) (v : MovieVerification) (s : VerifyState)
    (w : CreditVerification) (t : CreditCheckState)
    (hv : s.ver = some v) (hvs : v.status = "used") (hvo : v.userId = uid)
    (hw : t.ver = some w) (hws : w.status = "used") (hwo : w.userId = uid) :
    ((now : Int) - (v.createdAt : Int) ≤ (msPerHour : Nat) →
      checkVerify now uid s = (.alreadyUsed, s)) ∧
    ((now : Int) - (v.createdAt : Int) > (msPerHour : Nat) →
      checkVerify now uid s =
        (.expired, { s with ver := some { v with status := "expired" } })) ∧
    ((now : Int) - (w.createdAt : Int) ≤ (msPerHour : Nat) →
      checkCredit now uid t = (.alreadyUsed, t)) ∧
    ((now : Int) - (w.createdAt : Int) > (msPerHour : Nat) →
      checkCredit now uid t =
        (.expired, { t with ver := some { w with status := "expired" } })) := by
  refine ⟨fun h => ?_, fun h => ?_, fun h => ?_, fun h => ?_⟩
  · simp [checkVerify, hv, hvs, hvo, not_lt.mpr h]
  · simp [checkVerify, hv, hvs, hvo, h]
  · simp [checkCredit, hw, hws, hwo, not_lt.mpr h]
  · simp [checkCredit, hw, hws, hwo, h]

/-- C1, witness for the amended theorem at a concrete used token of each
kind, checked at 30 minutes and instantiated for the early branch. -/
theorem c1_used_token_check_amended_witness :
    checkVerify 1800000 7
      { ver := some { userId := 7, movieId := 3, status := "used",
                      createdAt := 0 },
        movie := none, accessUnlockedAt := none } =
      (.alreadyUsed,
       { ver := some { userId := 7, movieId := 3, status := "used",
                       createdAt := 0 },
         movie := none, accessUnlockedAt := none }) ∧
    checkCredit 1800000 7
      { ver := some { userId := 7, status := "used", creditsAmount := 2,
                      createdAt := 0 },
        ledger := initLedger } =
      (.alreadyUsed,
       { ver := some { userId := 7, status := "used", creditsAmount := 2,
                       createdAt := 0 },
         ledger := initLedger }) := by
  have h := c1_used_token_check_amended 1800000 7
    { userId := 7, movieId := 3, status := "used", createdAt := 0 }
    { ver := some { userId := 7, movieId := 3, status := "used",
                    createdAt := 0 },
      movie := none, accessUnlockedAt := none }
    { userId := 7, status := "used", creditsAmount := 2, createdAt := 0 }
    { ver := some { userId := 7, status := "used", creditsAmount := 2,
                    createdAt := 0 },
      ledger := initLedger }
    rfl rfl rfl rfl rfl rfl
  exact ⟨h.1 (by decide), h.2.2.1 (by decide)⟩

/-- C2, confirmed. A verified content-unlock token claimed twice by its
owner, both taps within 1 hour of creation: the first tap grants (the
access row is (re)written to the first tap's instant and the token moves to
used, the one grant side effect), and the second tap returns already_used
and changes nothing at all. -/
theorem c2_double_claim_exactly_once
    (t1 t2 uid : Nat) (v : MovieVerification) (m : Movie) (s : VerifyState)
    (hv : s.ver = some v) (hst : v.status = "verified") (hon : v.userId = uid)
    (hm : s.movie = some m)
    (h1 : (t1 : Int) - (v.createdAt : Int) ≤ (msPerHour : Nat))
    (h2 : (t2 : Int) - (v.createdAt : Int) ≤ (msPerHour : Nat)) :
    checkVerify t1 uid s =
      (.granted, { s with accessUnlockedAt := some t1,
                          ver := some { v with status := "used" } }) ∧
    checkVerify t2 uid
      { s with accessUnlockedAt := some t1,
               ver := some { v with status := "used" } } =
      (.alreadyUsed,
       { s with accessUnlockedAt := some t1,
                ver := some { v with status := "used" } }) := by
  constructor
  · simp [checkVerify, hv, hst, hon, hm, not_lt.mpr h1]
  · simp [checkVerify, hv, hst, hon, hm, not_lt.mpr h2]

/-- C2, witness: concrete verified token claimed at 1 s and again at 2 s. -/
theorem c2_double_claim_exactly_once_witness :
    checkVerify 1000 7
      { ver := some { userId := 7, movieId := 3, status := "verified",
                      createdAt := 0 },
        movie := some { id := 3, status := "published" },
        accessUnlockedAt := none } =
      (.granted,
       { ver := some { userId := 7, movieId := 3, status := "used",
                       createdAt := 0 },
         movie := some { id := 3, status := "published" },
         accessUnlockedAt := some 1000 }) ∧
    checkVerify 2000 7
      { ver := some { userId := 7, movieId := 3, status := "used",
                      createdAt := 0 },
        movie := some { id := 3, status := "published" },
        accessUnlockedAt := some 1000 } =
      (.alreadyUsed,
       { ver := some { userId := 7, movieId := 3, status := "used",
                       createdAt := 0 },
         movie := some { id := 3, status := "published" },
         accessUnlockedAt := some 1000 }) := by
  exact c2_double_claim_exactly_once 1000 2000 7
    { userId := 7, movieId := 3, status := "verified", createdAt := 0 }
    { id := 3, status := "published" }
    { ver := some { userId := 7, movieId := 3, status := "verified",
                    createdAt := 0 },
      movie := some { id := 3, status := "published" },
      accessUnlockedAt := none }
    rfl rfl rfl rfl (by decide) (by decide)

/-- C10, confirmed. The claim path does not re-check the item's publish
status: an owner claim of a verified token within 1 hour grants and writes
the access row to now even when the movie's status is not published, the
resulting grant is valid for any instant less than 12 hours later, while
the request path (getlink) denies the same unpublished movie to a
non-admin with no valid grant. -/
theorem c10_claim_ignores_publish_status
    (now uid : Nat) (v : MovieVerification) (m : Movie) (s : VerifyState)
    (hv : s.ver = some v) (hst : v.status = "verified") (hon : v.userId = uid)
    (hm : s.movie = some m) (hpub : m.status ≠ "published")
    (hfresh : (now : Int) - (v.createdAt : Int) ≤ (msPerHour : Nat)) :
    (checkVerify now uid s).1 = .granted ∧
    (checkVerify now uid s).2.accessUnlockedAt = some now ∧
    (∀ t2 : Nat, (t2 : Int) - (now : Int) <
        (ACCESS_VALIDITY_HOURS * msPerHour : Nat) →
      (isAccessValid t2 now).valid = true) ∧
    (∀ (l : Ledger) (hasAssets okUrl : Bool)
        (minted : Option MovieVerification),
      getlink now uid false okUrl
        { ledger := l, movie := some m, hasAssets := hasAssets,
          accessUnlockedAt := none, mintedVerification := minted } =
      (.notAvailable,
       { ledger := l, movie := some m, hasAssets := hasAssets,
         accessUnlockedAt := none, mintedVerification := minted })) := by
  refine ⟨?_, ?_, ?_, ?_⟩
  · simp [checkVerify, hv, hst, hon, hm, not_lt.mpr hfresh]
  · simp [checkVerify, hv, hst, hon, hm, not_lt.mpr hfresh]
  · intro t2 h
    simp only [isAccessValid, decide_eq_true_eq]
    push_cast at h ⊢
    omega
  · intro l hasAssets okUrl minted
    simp [getlink, isAccessValid, hpub]

/-- C10, witness: verified token for a draft movie, claimed at 1 s. -/
theorem c10_claim_ignores_publish_status_witness :
    (checkVerify 1000 7
      { ver := some { userId := 7, movieId := 3, status := "verified",
                      createdAt := 0 },
        movie := some { id := 3, status := "draft" },
        accessUnlockedAt := none }).1 = .granted ∧
    (checkVerify 1000 7
      { ver := some { userId := 7, movieId := 3, status := "verified",
                      createdAt := 0 },
        movie := some { id := 3, status := "draft" },
        accessUnlockedAt := none }).2.accessUnlockedAt = some 1000 ∧
    (isAccessValid 43199999 1000).valid = true ∧
    (getlink 1000 7 false true
      { ledger := initLedger, movie := some { id := 3, status := "draft" },
        hasAssets := true, accessUnlockedAt := none,
        mintedVerification := none }).1 = .notAvailable := by
  have h := c10_claim_ignores_publish_status 1000 7
    { userId := 7, movieId := 3, status := "verified", createdAt := 0 }
    { id := 3, status := "draft" }
    { ver := some { userId := 7, movieId := 3, status := "verified",
                    createdAt := 0 },
      movie := some { id := 3, status := "draft" },
      accessUnlockedAt := none }
    rfl rfl rfl rfl (by decide) (by decide)
  refine ⟨h.1, h.2.1, h.2.2.1 43199999 (by decide), ?_⟩
  have h4 := h.2.2.2 initLedger true true none
  simp [h4]

/-- C3, code_bug evaluation at the failing input. A non-admin, non-premium
user holding 5 credits, with no access grant, requesting a published movie
with assets: the handler inserts a pending verification token and returns
the verification flow; the balance stays 5 and no transaction is appended —
no credit is checked or spent anywhere on this path (`spendCredit` has no
call site). -/
theorem c3_getlink_never_spends_credit :
    getlink 1000 7 false true
      { ledger := { account := { credits := 5, lastCreditReset := none,
                                 isPremium := false,
                                 premiumExpiresAt := none },
                    txLog := [] },
        movie := some { id := 9, status := "published" },
        hasAssets := true, accessUnlockedAt := none,
        mintedVerification := none } =
      (.needsVerification,
       { ledger := { account := { credits := 5, lastCreditReset := none,
                                  isPremium := false,
                                  premiumExpiresAt := none },
                     txLog := [] },
         movie := some { id := 9, status := "published" },
         hasAssets := true, accessUnlockedAt := none,
         mintedVerification := some { userId := 7, movieId := 9,
                                      status := "pending",
                                      createdAt := 1000 } }) := by
  decide

/-- C4, confirmed. `canEarnCredits` on an existing row: with at least 12
hours elapsed since the (possibly unset, then 13-hours-ago) reset anchor it
zeroes the balance, moves the anchor to now and allows; with less than 12
hours elapsed and balance at least 2 it blocks, reporting the floored
hour/minute decomposition of 12 hours minus the elapsed time, with no state
change; otherwise it allows with no state change.  An unset anchor always
lands in the eligible branch. -/
theorem c4_canEarn_spec (now : Nat) (a : Account) :
    (msSinceReset now a ≥ (12 * msPerHour : Nat) →
      canEarnCredits now a =
        ({ canEarn := true, hoursRemaining := none,
           minutesRemaining := none },
         { a with credits := 0, lastCreditReset := some now })) ∧
    (msSinceReset now a < (12 * msPerHour : Nat) → a.credits ≥ 2 →
      canEarnCredits now a =
        ({ canEarn := false,
           hoursRemaining := some
             ((((12 * msPerHour : Nat) : Int) - msSinceReset now a).toNat /
               msPerHour),
           minutesRemaining := some
             ((((12 * msPerHour : Nat) : Int) - msSinceReset now a).toNat %
               msPerHour / (60 * 1000)) }, a)) ∧
    (msSinceReset now a < (12 * msPerHour : Nat) → a.credits < 2 →
      canEarnCredits now a =
        ({ canEarn := true, hoursRemaining := none,
           minutesRemaining := none }, a)) ∧
    (a.lastCreditReset = none →
      msSinceReset now a ≥ (12 * msPerHour : Nat)) := by
  refine ⟨fun h => ?_, fun h h2 => ?_, fun h h2 => ?_, fun h => ?_⟩
  · unfold canEarnCredits
    rw [if_pos h]
  · unfold canEarnCredits
    rw [if_neg (not_le.mpr h), if_pos h2]
  · unfold canEarnCredits
    rw [if_neg (not_le.mpr h), if_neg (not_le.mpr h2)]
  · simp [msSinceReset, h, msPerHour]

/-- C4, witness: the blocked branch at balance 2, one hour into the cycle,
via the theorem; 11 h 0 m remain. -/
theorem c4_canEarn_spec_witness :
    canEarnCredits 3600000
      { credits := 2, lastCreditReset := some 0, isPremium := false,
        premiumExpiresAt := none } =
      ({ canEarn := false, hoursRemaining := some 11,
         minutesRemaining := some 0 },
       { credits := 2, lastCreditReset := some 0, isPremium := false,
         premiumExpiresAt := none }) := by
  have h := (c4_canEarn_spec 3600000
    { credits := 2, lastCreditReset := some 0, isPremium := false,
      premiumExpiresAt := none }).2.1 (by decide) (by decide)
  simpa using h

/-- Helper: every balance-mutating operation of the source preserves a
nonnegative cached balance. -/
theorem applyOp_credits_nonneg (l : Ledger) (op : CreditOp)
    (h : 0 ≤ l.account.credits) : 0 ≤ (applyOp l op).account.credits := by
  cases op with
  | canEarnQuery now =>
    simp only [applyOp, canEarnLedger, canEarnCredits]
    split
    · simp
    · split <;> simpa using h
  | earn now => simp [applyOp, earnCredits]; omega
  | spend =>
    simp only [applyOp, spendCredit]
    split
    · simpa using h
    · rename_i hc
      simp only
      simp
      omega
  | referral => simp [applyOp, referralAward]; omega
  | adminReset now => simp [applyOp, adminResetCredits]

/-- C5, confirmed. Starting from any row with a nonnegative balance (in
particular a fresh row, whose schema default is 0), every sequence of
balance-mutating operations — earn, spend, the canEarn cycle reset, the
referral award, the admin reset — leaves the cached balance nonnegative. -/
theorem c5_balance_nonneg (l : Ledger) (ops : List CreditOp)
    (h : 0 ≤ l.account.credits) : 0 ≤ (runOps l ops).account.credits := by
  induction ops generalizing l with
  | nil => simpa [runOps] using h
  | cons op rest ih =>
    have := applyOp_credits_nonneg l op h
    simpa [runOps, List.foldl_cons] using ih (applyOp l op) this

/-- C5, witness: a concrete interleaving from a fresh row. -/
theorem c5_balance_nonneg_witness :
    0 ≤ initLedger.account.credits ∧
    0 ≤ (runOps initLedger
          [.earn 0, .spend, .spend, .referral, .canEarnQuery 43200000,
           .spend, .adminReset 50000000]).account.credits :=
  ⟨by decide,
   c5_balance_nonneg initLedger
     [.earn 0, .spend, .spend, .referral, .canEarnQuery 43200000,
      .spend, .adminReset 50000000] (by decide)⟩

/-- C6, counterexample. The claim says the cached balance always equals the
sum of the account's credit-transaction amounts.  On the code, the referral
award leaves balance 1 against a transaction sum of 0, and an earn followed
by a canEarn cycle reset leaves balance 0 against a transaction sum of 2. -/
theorem c6_cache_diverges_from_log :
    (applyOp initLedger .referral).account.credits = 1 ∧
    txSum (applyOp initLedger .referral).txLog = 0 ∧
    (runOps initLedger
      [.earn 0, .canEarnQuery 43200000]).account.credits = 0 ∧
    txSum (runOps initLedger [.earn 0, .canEarnQuery 43200000]).txLog = 2 := by
  decide

/-- Helper: earn-or-spend recognizer over the balance-mutating ops. -/
def isEarnOrSpend : CreditOp → Bool
  | .earn _ => true
  | .spend => true
  | _ => false

/-- Helper: the transaction sum is additive over appends. -/
theorem txSum_append (a b : List CreditTx) :
    txSum (a ++ b) = txSum a + txSum b := by
  simp [txSum]

/-- C6, amended. The transaction log is append-only under every
balance-mutating operation, and the cached balance equals the sum of the
account's transaction amounts across any sequence of earn and spend
operations; the referral award, the canEarn cycle reset and the admin reset
change the balance without appending an entry, so they break the
cache-equals-sum equation (the log is still never mutated or deleted). -/
theorem c6_append_only_and_earn_spend_sum :
    (∀ (l : Ledger) (op : CreditOp),
      ∃ t, (applyOp l op).txLog = l.txLog ++ t) ∧
    (∀ (l : Ledger) (ops : List CreditOp),
      (∀ op ∈ ops, isEarnOrSpend op = true) →
      l.account.credits = txSum l.txLog →
      (runOps l ops).account.credits = txSum (runOps l ops).txLog) := by
  constructor
  · intro l op
    cases op with
    | canEarnQuery now =>
      exact ⟨[], by simp [applyOp, canEarnLedger, canEarnCredits]⟩
    | earn now =>
      exact ⟨[{ amount := 2, reason := "shortener_visit" }],
        by simp [applyOp, earnCredits]⟩
    | spend =>
      by_cases hc : l.account.credits < 1
      · exact ⟨[], by simp [applyOp, spendCredit, hc]⟩
      · exact ⟨[{ amount := -1, reason := "link_access" }],
          by simp [applyOp, spendCredit, hc]⟩
    | referral => exact ⟨[], by simp [applyOp, referralAward]⟩
    | adminReset now => exact ⟨[], by simp [applyOp, adminResetCredits]⟩
  · intro l ops
    induction ops generalizing l with
    | nil => intro _ h; simpa [runOps] using h
    | cons op rest ih =>
      intro hops h
      have hop : isEarnOrSpend op = true := hops op (by simp)
      have hrest : ∀ o ∈ rest, isEarnOrSpend o = true :=
        fun o ho => hops o (by simp [ho])
      have hstep : (applyOp l op).account.credits =
          txSum (applyOp l op).txLog := by
        cases op with
        | earn now => simp [applyOp, earnCredits, txSum_append, txSum, h]
        | spend =>
          by_cases hc : l.account.credits < 1
          · simpa [applyOp, spendCredit, hc] using h
          · simp only [applyOp, spendCredit, if_neg hc]
            simp only [txSum] at h ⊢
            simp
            omega
        | canEarnQuery now => simp [isEarnOrSpend] at hop
        | referral => simp [isEarnOrSpend] at hop
        | adminReset now => simp [isEarnOrSpend] at hop
      simpa [runOps, List.foldl_cons] using ih (applyOp l op) hrest hstep

/-- C6, witness for the amended theorem: append-only at a concrete referral
step, and cache-equals-sum across a concrete earn-spend run. -/
theorem c6_append_only_and_earn_spend_sum_witness :
    (∃ t, (applyOp initLedger .referral).txLog = initLedger.txLog ++ t) ∧
    (runOps initLedger [.earn 0, .spend]).account.credits =
      txSum (runOps initLedger [.earn 0, .spend]).txLog :=
  ⟨c6_append_only_and_earn_spend_sum.1 initLedger .referral,
   c6_append_only_and_earn_spend_sum.2 initLedger [.earn 0, .spend]
     (by decide) (by decide)⟩

/-- C8, counterexample. The claim says a successful spend appends a `-1`
transaction with reason "access".  On the code, spending from balance 1
appends the reason "link_access", and no appended entry carries the reason
"access". -/
theorem c8_spend_reason_counterexample :
    (spendCredit { account := { credits := 1, lastCreditReset := none,
                                isPremium := false,
                                premiumExpiresAt := none },
                   txLog := [] }).2.txLog =
      [{ amount := -1, reason := "link_access" }] ∧
    ∀ tx ∈ (spendCredit { account := { credits := 1,
                                       lastCreditReset := none,
                                       isPremium := false,
                                       premiumExpiresAt := none },
                          txLog := [] }).2.txLog,
      tx.reason ≠ "access" := by
  decide

/-- C8, amended. `spendCredit` on an existing row fails (success false)
exactly when the balance is below 1, in that case returning the current
balance as a plain result with the balance and the transaction log both
unchanged; otherwise it appends a `-1` transaction with reason
"link_access" (not "access") and decrements the cached balance by exactly
1, returning the new balance. -/
theorem c8_spend_spec_amended (l : Ledger) :
    ((spendCredit l).1.1 = false ↔ l.account.credits < 1) ∧
    (l.account.credits < 1 →
      spendCredit l = ((false, l.account.credits), l)) ∧
    (1 ≤ l.account.credits →
      spendCredit l =
        ((true, l.account.credits - 1),
         { account := { l.account with credits := l.account.credits - 1 },
           txLog := l.txLog ++
             [{ amount := -1, reason := "link_access" }] })) := by
  refine ⟨?_, fun h => ?_, fun h => ?_⟩
  · by_cases hc : l.account.credits < 1 <;> simp [spendCredit, hc]
  · simp [spendCredit, h]
  · simp [spendCredit, not_lt.mpr h]

/-- C8, witness: the failure branch at balance 0 and the success branch at
balance 1, via the amended theorem. -/
theorem c8_spend_spec_amended_witness :
    spendCredit initLedger = ((false, 0), initLedger) ∧
    spendCredit { account := { credits := 1, lastCreditReset := none,
                               isPremium := false,
                               premiumExpiresAt := none },
                  txLog := [] } =
      ((true, 0),
       { account := { credits := 0, lastCreditReset := none,
                      isPremium := false, premiumExpiresAt := none },
         txLog := [{ amount := -1, reason := "link_access" }] }) := by
  constructor
  · have h := (c8_spend_spec_amended initLedger).2.1 (by decide)
    simpa using h
  · have h := (c8_spend_spec_amended
      { account := { credits := 1, lastCreditReset := none,
                     isPremium := false, premiumExpiresAt := none },
        txLog := [] }).2.2 (by decide)
    simpa using h

/-- C7, counterexample. Two failures of the claim on the code.  First, at
an expiry equal to now (1000), `isPremiumUser` returns true although the
expiry is not strictly later than now.  Second, an account whose premium
expired long ago (expiry 5, now 1000) is not premium by `isPremiumUser`,
yet the earncredits callback — which reads only the raw flag — gives it the
premium branch and blocks it from earning credits (no token minted). -/
theorem c7_premium_counterexample :
    (isPremiumUser 1000
       { credits := 0, lastCreditReset := none, isPremium := true,
         premiumExpiresAt := some 1000 } = true ∧
     ¬ (1000 : Nat) < 1000) ∧
    (isPremiumUser 1000
       { credits := 0, lastCreditReset := none, isPremium := true,
         premiumExpiresAt := some 5 } = false ∧
     (earncreditsCallback 1000 7 true
       { ledger := { account := { credits := 0, lastCreditReset := none,
                                  isPremium := true,
                                  premiumExpiresAt := some 5 },
                     txLog := [] },
         mintedCreditVerification := none }).1 = .premiumBlocked ∧
     (earncreditsCallback 1000 7 true
       { ledger := { account := { credits := 0, lastCreditReset := none,
                                  isPremium := true,
                                  premiumExpiresAt := some 5 },
                     txLog := [] },
         mintedCreditVerification := none }).2.mintedCreditVerification =
       none) := by
  decide

/-- C7, amended. `isPremiumUser` is true iff the premium flag is set and no
recorded expiry lies strictly before now (an expiry equal to now still
counts as premium).  Operations guarded by `isPremiumUser` give an account
with a passed expiry no premium bypass (the getlink premium branch is
unreachable for it), but the earncredits callback tests only the raw
premium flag, so any flagged account — expired or not — is blocked there
from the credit-earning flow, with no token minted. -/
theorem c7_premium_amended :
    (∀ (now : Nat) (a : Account),
      isPremiumUser now a = true ↔
        (a.isPremium = true ∧
         ∀ t, a.premiumExpiresAt = some t → now ≤ t)) ∧
    (∀ (now uid : Nat) (ok : Bool) (s : EarnCbState),
      s.ledger.account.isPremium = true →
      (earncreditsCallback now uid ok s).1 = .premiumBlocked ∧
      (earncreditsCallback now uid ok s).2.mintedCreditVerification =
        s.mintedCreditVerification) ∧
    (∀ (now uid : Nat) (okUrl : Bool) (s : GetlinkState),
      isPremiumUser now s.ledger.account = false →
      (getlink now uid false okUrl s).1 ≠ .premiumAccess) := by
  refine ⟨?_, ?_, ?_⟩
  · intro now a
    cases hp : a.isPremium <;> cases he : a.premiumExpiresAt <;>
      simp [isPremiumUser, hp, he]
  · intro now uid ok s h
    constructor <;> simp [earncreditsCallback, h]
  · intro now uid okUrl s h
    cases hm : s.movie with
    | none => simp [getlink, hm]
    | some m =>
      simp only [getlink, hm]
      split
      · simp
      · split
        · simp
        · split
          · simp
          · split
            · rename_i hcond
              simp [h] at hcond
            · split
              · simp
              · split <;> simp

/-- C7, witness for the amended theorem at a concrete live premium, a
concrete flagged account in the callback, and a concrete expired premium on
the getlink path. -/
theorem c7_premium_amended_witness :
    (isPremiumUser 1000
      { credits := 0, lastCreditReset := none, isPremium := true,
        premiumExpiresAt := some 2000 } = true) ∧
    (earncreditsCallback 1000 7 true
      { ledger := { account := { credits := 0, lastCreditReset := none,
                                 isPremium := true,
                                 premiumExpiresAt := some 5 },
                    txLog := [] },
        mintedCreditVerification := none }).1 = .premiumBlocked ∧
    (getlink 1000 7 false true
      { ledger := { account := { credits := 0, lastCreditReset := none,
                                 isPremium := true,
                                 premiumExpiresAt := some 5 },
                    txLog := [] },
        movie := some { id := 9, status := "published" },
        hasAssets := true, accessUnlockedAt := none,
        mintedVerification := none }).1 ≠ .premiumAccess := by
  refine ⟨?_, ?_, ?_⟩
  · exact (c7_premium_amended.1 1000
      { credits := 0, lastCreditReset := none, isPremium := true,
        premiumExpiresAt := some 2000 }).mpr
      ⟨rfl, by intro t ht; cases ht; omega⟩
  · exact (c7_premium_amended.2.1 1000 7 true
      { ledger := { account := { credits := 0, lastCreditReset := none,
                                 isPremium := true,
                                 premiumExpiresAt := some 5 },
                    txLog := [] },
        mintedCreditVerification := none } rfl).1
  · exact c7_premium_amended.2.2 1000 7 true
      { ledger := { account := { credits := 0, lastCreditReset := none,
                                 isPremium := true,
                                 premiumExpiresAt := some 5 },
                    txLog := [] },
        movie := some { id := 9, status := "published" },
        hasAssets := true, accessUnlockedAt := none,
        mintedVerification := none } (by decide)

/-- C9, counterexample. The claim says a successful referral insert credits
the referrer via the Credit Ledger.  On the code, registering a fresh
referral raises the referrer's cached balance to 1 while the referrer's
credit-transaction log stays empty: the award bypasses the transaction
log entirely. -/
theorem c9_referral_award_bypasses_log :
    (registerReferral 1 2
      { referrals := [], referrer := initLedger }).referrer.account.credits =
      1 ∧
    (registerReferral 1 2
      { referrals := [], referrer := initLedger }).referrer.txLog = [] ∧
    txSum (registerReferral 1 2
      { referrals := [], referrer := initLedger }).referrer.txLog = 0 := by
  decide

/-- C9, amended. When a referral row for the referred account already
exists, registration is a silent no-op (state, including the referrer's
balance, unchanged); otherwise exactly one row is appended and the
referrer's cached balance is credited by the award amount (1) exactly once,
directly, with no credit-transaction entry appended; and the registry never
goes from at most one to more than one row per referred account. -/
theorem c9_referral_amended (rid xid : Nat) (s : ReferralState) :
    (s.referrals.any (fun r => r.referredId == xid) = true →
      registerReferral rid xid s = s) ∧
    (s.referrals.any (fun r => r.referredId == xid) = false →
      (registerReferral rid xid s).referrals =
        s.referrals ++ [{ referrerId := rid, referredId := xid,
                          creditsAwarded := 1 }] ∧
      (registerReferral rid xid s).referrer.account.credits =
        s.referrer.account.credits + 1 ∧
      (registerReferral rid xid s).referrer.txLog = s.referrer.txLog) ∧
    (s.referrals.countP (fun r => r.referredId == xid) ≤ 1 →
      (registerReferral rid xid s).referrals.countP
        (fun r => r.referredId == xid) ≤ 1) := by
  refine ⟨fun h => ?_, fun h => ?_, fun h => ?_⟩
  · simp [registerReferral, h]
  · simp [registerReferral, h, referralAward]
  · by_cases ha : s.referrals.any (fun r => r.referredId == xid) = true
    · simpa [registerReferral, ha] using h
    · have hfalse : s.referrals.any (fun r => r.referredId == xid) = false :=
        Bool.eq_false_iff.mpr ha
      have hzero : s.referrals.countP (fun r => r.referredId == xid) = 0 := by
        rw [List.countP_eq_zero]
        intro r hr
        simpa using List.any_eq_false.mp hfalse r hr
      simp [registerReferral, ha, List.countP_append, hzero]

/-- C9, witness for the amended theorem: a fresh registration and a
repeated registration for the same referred account. -/
theorem c9_referral_amended_witness :
    (registerReferral 1 2
      { referrals := [], referrer := initLedger }).referrals =
      [{ referrerId := 1, referredId := 2, creditsAwarded := 1 }] ∧
    registerReferral 3 2
      { referrals := [{ referrerId := 1, referredId := 2,
                        creditsAwarded := 1 }],
        referrer := initLedger } =
      { referrals := [{ referrerId := 1, referredId := 2,
                        creditsAwarded := 1 }],
        referrer := initLedger } := by
  constructor
  · have h := ((c9_referral_amended 1 2
      { referrals := [], referrer := initLedger }).2.1 (by decide)).1
    simpa using h
  · exact (c9_referral_amended 3 2
      { referrals := [{ referrerId := 1, referredId := 2,
                        creditsAwarded := 1 }],
        referrer := initLedger }).1 (by decide)

end MovieBot
